import Mathlib

/-!
Verification development for the `pylgcpd` EM point-cloud registration library
(`src/pylgcpd/emregistration.py` and `src/pylgcpd/affine_registration.py`).

The Python code is shallowly embedded: pure numeric computations become Lean
functions over `ℚ` (control flow, validation) or `ℝ` (the Gaussian expectation
step and variance update, which use `exp`, `π` and real powers); the iterative
registration loop becomes a fuel-indexed recursion over an explicit state
record; code that can raise a Python exception returns `Except String`.
-/

namespace Pylgcpd

/-! ### Constructor validation (emregistration.py, `EMRegistration.__init__`, lines 140-279)

Arrays are represented by their shape (a list of dimension sizes), which is all
the constructor's validation logic inspects.  A Python number is a rational
value together with the information whether its Python type is `int`
(`isinstance(x, int)` distinguishes `2` from `2.0`). -/

/-- A Python number as seen by `isinstance` checks: its value and whether its
Python type is `int`. -/
structure PyNum where
  val : ℚ
  isInt : Bool
deriving DecidableEq

/-- Python `int()` conversion on a real-valued number: truncation toward zero
(floor for non-negative values, ceiling for negative ones). -/
def pyIntTrunc (q : ℚ) : ℤ :=
  if 0 ≤ q then ⌊q⌋ else ⌈q⌉

/-- Validation of the `max_iterations` argument, from emregistration.py lines
181-186: `None` passes through; a negative number raises `ValueError`; a
number whose Python type is not `int` is cast with `int(...)` (truncation
toward zero) and a warning is issued.  Returns the stored value and whether a
warning was issued. -/
def validate_max_iterations : Option PyNum → Except String (Option ℚ × Bool)
  | Option.none => Except.ok (Option.none, false)
  | Option.some m =>
    if m.val < 0 then
      Except.error "Expected a positive integer for max_iterations"
    else if m.isInt then
      Except.ok (Option.some m.val, false)
    else
      Except.ok (Option.some ((pyIntTrunc m.val : ℤ) : ℚ), true)

/-- Shape of `xp.asarray` applied to an optional array argument
(emregistration.py lines 159-160): an actual array keeps its shape, while
`np.asarray(None)` produces a 0-dimensional (shape `[]`) object array — it is
an `ndarray`, so later `is not None` tests on the converted value succeed. -/
def npShapeOfOpt : Option (List ℕ) → List ℕ
  | Option.none => []
  | Option.some s => s

/-- Evaluation of the boolean expression at emregistration.py lines 201-202:
`X_landmarks is not None and Y_landmarks is not None and
X_landmarks.shape[0] != 0 and X_landmarks.shape == Y_landmarks.shape`.
Because of the `asarray` conversion at lines 159-160 both `is not None` tests
are evaluated on ndarrays and always succeed, so evaluation always reaches
`X_landmarks.shape[0]`, which raises `IndexError` when the array is
0-dimensional (the case of an absent, `None`, landmark argument). -/
def landmark_guided_check (xl yl : Option (List ℕ)) : Except String Bool :=
  let xs := npShapeOfOpt xl
  let ys := npShapeOfOpt yl
  match xs.get? 0 with
  | Option.none => Except.error "IndexError: tuple index out of range"
  | Option.some k => Except.ok (decide (k ≠ 0) && decide (xs = ys))

/-- Python `len` of a numpy array (emregistration.py lines 207, 211): the
first dimension of its shape; raises `TypeError` on a 0-dimensional array. -/
def pyLen (s : List ℕ) : Except String ℕ :=
  match s.get? 0 with
  | Option.none => Except.error "TypeError: len() of unsized object"
  | Option.some k => Except.ok k

/-- Derivation of the stored `force_max_iterations` flag, from
emregistration.py line 256: false unless both a flag and a cap were given. -/
def initForce : Option Bool → Option ℚ → Bool
  | Option.some b, Option.some _ => b
  | _, _ => false

/-- Constructor arguments of `EMRegistration` (shapes stand for the arrays). -/
structure InitArgs where
  Xshape : List ℕ
  Yshape : List ℕ
  sigma2 : Option ℚ
  max_iterations : Option PyNum
  tolerance : Option ℚ
  outliers : Option ℚ
  ss2 : Option ℚ
  X_landmarks : Option (List ℕ)
  Y_landmarks : Option (List ℕ)
  force_max_iterations : Option Bool
deriving DecidableEq

/-- The scalar/flag state produced by a successful `EMRegistration.__init__`. -/
structure InitResult where
  landmark_guided : Bool
  K : ℕ
  max_iterations : Option ℚ
  max_iter_warned : Bool
  tolerance : ℚ
  outliers : ℚ
  ss2 : ℚ
  force_max_iterations : Bool
deriving DecidableEq

/-- The validation and landmark-setup part of `EMRegistration.__init__`
(emregistration.py lines 156-279), with checks performed in source order:
rank checks on `X` and `Y` (lines 165-171), dimensionality match (line 173),
range checks on `sigma2`, `max_iterations`, `tolerance`, `outliers`/`w`, `ss2`
(lines 177-198), evaluation of `landmark_guided` (lines 201-202, which can
raise `IndexError`), the zero-length landmark checks (lines 207-213, whose
`len` can raise `TypeError`), the landmark shape-match check (line 215), then
the stored scalars: `K` (line 231), `force_max_iterations` (line 256),
`tolerance` default `0.001` (line 261), `outliers` default `0` (line 265),
`ss2` default `0.1` (line 229). -/
def emInit (a : InitArgs) : Except String InitResult :=
  if a.Xshape.length ≠ 2 then
    Except.error "The target point cloud (X) must be at a 2D numpy array."
  else if a.Yshape.length ≠ 2 then
    Except.error "The source point cloud (Y) must be a 2D numpy array."
  else if a.Xshape.get? 1 ≠ a.Yshape.get? 1 then
    Except.error "Both point clouds need to have the same number of dimensions."
  else if (match a.sigma2 with
           | Option.some s => decide (s ≤ 0)
           | Option.none => false) then
    Except.error "Expected a positive value for sigma2"
  else
    match validate_max_iterations a.max_iterations with
    | Except.error e => Except.error e
    | Except.ok (mi, warned) =>
      if (match a.tolerance with
          | Option.some t => decide (t < 0)
          | Option.none => false) then
        Except.error "Expected a positive float for tolerance"
      else if (match a.outliers with
               | Option.some w => decide (w < 0) || decide (1 ≤ w)
               | Option.none => false) then
        Except.error "Expected a value between 0 (inclusive) and 1 (exclusive) for w"
      else if (match a.ss2 with
               | Option.some s => decide (s ≤ 0)
               | Option.none => false) then
        Except.error "Expected a positive value for ss2."
      else
        match landmark_guided_check a.X_landmarks a.Y_landmarks with
        | Except.error e => Except.error e
        | Except.ok guided =>
          match pyLen (npShapeOfOpt a.X_landmarks) with
          | Except.error e => Except.error e
          | Except.ok lx =>
            if lx = 0 then
              Except.error "Expected array of nonzero length for X_landmarks."
            else
              match pyLen (npShapeOfOpt a.Y_landmarks) with
              | Except.error e => Except.error e
              | Except.ok ly =>
                if ly = 0 then
                  Except.error "Expected array of nonzero length for Y_landmarks."
                else if npShapeOfOpt a.X_landmarks ≠ npShapeOfOpt a.Y_landmarks then
                  Except.error "Landmark arrays must be the same shape."
                else
                  Except.ok
                    { landmark_guided := guided
                      K := if guided then (npShapeOfOpt a.X_landmarks).headD 0 else 0
                      max_iterations := mi
                      max_iter_warned := warned
                      tolerance := match a.tolerance with
                                   | Option.none => 1 / 1000
                                   | Option.some t => t
                      outliers := match a.outliers with
                                  | Option.none => 0
                                  | Option.some w => w
                      ss2 := match a.ss2 with
                             | Option.none => 1 / 10
                             | Option.some s => s
                      force_max_iterations := initForce a.force_max_iterations mi }

/-- Benign constructor arguments: two 4-point 2-D clouds, a matching pair of
one-landmark arrays (so the landmark path succeeds), and all hyperparameters
left at their defaults. -/
def benignArgs : InitArgs :=
  { Xshape := [4, 2]
    Yshape := [4, 2]
    sigma2 := Option.none
    max_iterations := Option.none
    tolerance := Option.none
    outliers := Option.none
    ss2 := Option.none
    X_landmarks := Option.some [1, 2]
    Y_landmarks := Option.some [1, 2]
    force_max_iterations := Option.none }

/-! ### The registration loop (emregistration.py, `register` lines 361-372 and
`iterate` lines 422-426)

The loop state keeps the fields the loop's control flow reads and the callback
reports: the iteration counter, the convergence signal `diff` and the objective
value `q` (both `∞`-valued at start, so modelled in `WithTop ℚ`).  The numeric
core of one iteration (expectation followed by maximization) is abstracted by
the sequence `dseq` of `diff` values that `update_variance` assigns on
successive iterations; `update_variance` of the affine model also
unconditionally assigns `q = xp.inf` (affine_registration.py line 101). -/

/-- Loop-relevant mutable state of the engine: `iteration` (line 257),
`diff` (line 258, initially `∞`) and `q` (line 273, initially `∞`). -/
structure LoopState where
  iteration : ℕ
  diff : WithTop ℚ
  q : WithTop ℚ
deriving DecidableEq

/-- The engine state right after construction: `iteration = 0`,
`diff = ∞`, `q = ∞` (emregistration.py lines 257-258 and 273). -/
def initLoopState : LoopState :=
  { iteration := 0, diff := ⊤, q := ⊤ }

/-- The `while` condition of `register` (emregistration.py lines 364-365):
`(max_iterations is None or iteration < max_iterations) and
((max_iterations is not None and force_max_iterations) or diff > tolerance)`. -/
def loopCond (mi : Option ℕ) (force : Bool) (tol : ℚ) (iteration : ℕ)
    (diff : WithTop ℚ) : Bool :=
  (match mi with
   | Option.none => true
   | Option.some c => decide (iteration < c)) &&
  ((mi.isSome && force) || decide ((tol : WithTop ℚ) < diff))

/-- One call of `iterate` (emregistration.py lines 422-426) for the affine
model: `update_hyperparameters` is a no-op (line 420); `expectation` and
`maximization` update the numeric state — their effect on the loop state is
the `diff` value that `update_variance` assigns (abstracted by `dseq`,
indexed by the pre-increment iteration counter) and the unconditional
`q = xp.inf` of affine `update_variance` (affine_registration.py line 101) —
and finally `iteration += 1` (line 426). -/
def iterateStep (dseq : ℕ → WithTop ℚ) (st : LoopState) : LoopState :=
  { iteration := st.iteration + 1
    diff := dseq st.iteration
    q := ⊤ }

/-- The `while` loop of `register` (emregistration.py lines 364-370), with
explicit fuel to model a possibly non-terminating Python loop: `none` means
the fuel ran out while the loop condition still held; otherwise the result is
the final state together with the list of callback records, each holding the
`iteration` and `error` keyword arguments passed to the callback (lines
367-370; `error` is `self.q`). -/
def registerLoop (mi : Option ℕ) (force : Bool) (tol : ℚ)
    (dseq : ℕ → WithTop ℚ) : ℕ → LoopState → Option (LoopState × List (ℕ × WithTop ℚ))
  | 0, st =>
    if loopCond mi force tol st.iteration st.diff then Option.none
    else Option.some (st, [])
  | Nat.succ fuel, st =>
    if loopCond mi force tol st.iteration st.diff then
      let st' := iterateStep dseq st
      match registerLoop mi force tol dseq fuel st' with
      | Option.none => Option.none
      | Option.some (stF, recs) => Option.some (stF, (st'.iteration, st'.q) :: recs)
    else Option.some (st, [])

/-- The `diff` value held by the engine after `k` iterations: the initial
`∞` (line 258) for `k = 0`, afterwards the value assigned by the `k`-th call
of `update_variance`. -/
def diffAt (dseq : ℕ → WithTop ℚ) : ℕ → WithTop ℚ
  | 0 => ⊤
  | Nat.succ k => dseq k

/-! ### Normalization subsystem (emregistration.py, `calculateNormalizationParams`
lines 281-342 and `get_transformed_points` lines 375-383)

The forward/inverse maps are generic in the scalar field; point data is a
function `Fin n → Fin D → α`. -/

/-- Which side's normalization parameters to use: the `mode` string argument
(`'X'` or `'Y'`) of the `normalize` closure (emregistration.py line 317). -/
inductive NormMode where
  | X : NormMode
  | Y : NormMode
deriving DecidableEq

/-- Normalization parameters of both clouds, as stored in
`self.normalize_params` (emregistration.py lines 309-314). -/
structure NormParams (D : ℕ) (α : Type) where
  X_mean : Fin D → α
  Y_mean : Fin D → α
  X_scale : α
  Y_scale : α

/-- Mean selected by the `mode` argument (emregistration.py line 320). -/
def normMean {D : ℕ} {α : Type} (p : NormParams D α) : NormMode → Fin D → α
  | NormMode.X => p.X_mean
  | NormMode.Y => p.Y_mean

/-- Scale selected by the `mode` argument (emregistration.py line 321). -/
def normScale {D : ℕ} {α : Type} (p : NormParams D α) : NormMode → α
  | NormMode.X => p.X_scale
  | NormMode.Y => p.Y_scale

/-- The `normalize` closure of emregistration.py lines 317-333: with
`invert=False` the forward map `(data - mean) / scale`, with `invert=True` the
inverse map `data * scale + mean`, broadcast over all points and coordinates,
using the side selected by `mode`. -/
def normalizeData {D n : ℕ} {α : Type} [DivisionRing α] (p : NormParams D α)
    (mode : NormMode) (invert : Bool) (data : Fin n → Fin D → α) :
    Fin n → Fin D → α :=
  fun i d =>
    if invert then data i d * normScale p mode + normMean p mode d
    else (data i d - normMean p mode d) / normScale p mode

/-- The `denormalize` closure of emregistration.py lines 335-336. -/
def denormalizeData {D n : ℕ} {α : Type} [DivisionRing α] (p : NormParams D α)
    (mode : NormMode) (data : Fin n → Fin D → α) : Fin n → Fin D → α :=
  normalizeData p mode true data

/-- The non-landmark slice `TY_points_and_landmarks[:M]` of the transformed
source cloud. -/
def TYpoints {M K D : ℕ} {α : Type} (TY : Fin (M + K) → Fin D → α) :
    Fin M → Fin D → α :=
  fun i => TY (Fin.castAdd K i)

/-- `get_transformed_points` (emregistration.py lines 375-383): when
normalization is on, the non-landmark transformed points are denormalized
with the target's (`'X'`) parameters; otherwise they are returned as is. -/
def get_transformed_points {M K D : ℕ} {α : Type} [DivisionRing α]
    (normalize : Bool) (p : NormParams D α) (TY : Fin (M + K) → Fin D → α) :
    Fin M → Fin D → α :=
  if normalize then denormalizeData p NormMode.X (TYpoints TY)
  else TYpoints TY

/-- Concrete normalization parameters used by the C7 witness. -/
def exampleNormParams : NormParams 1 ℚ :=
  { X_mean := fun _ => 3
    Y_mean := fun _ => 5
    X_scale := 2
    Y_scale := 7 }

/-- Concrete 1-point 1-D cloud used by the C7 witness. -/
def exampleCloud : Fin 1 → Fin 1 → ℚ := fun _ _ => 11

/-! ### Expectation step (emregistration.py, `expectation` lines 429-465)

Real-valued: the Gaussian kernel uses `Real.exp` and the outlier constant uses
`Real.pi` and a real power.  `Xp` is `X_points` (N×D) and `TY` the non-landmark
slice `TY_points_and_landmarks[:M]` (M×D), exactly the arrays the source reads. -/

noncomputable section RealEmbedding

section Expectation

variable (M N K D : ℕ) (Xp : Fin N → Fin D → ℝ) (TY : Fin M → Fin D → ℝ)
variable (sigma2 w ss2 : ℝ)

/-- Squared Euclidean distance matrix (emregistration.py line 433):
entry `(m, n)` is the squared distance between target point `n` and
transformed source point `m`. -/
def sqDistP (m : Fin M) (n : Fin N) : ℝ :=
  ∑ d : Fin D, (Xp n d - TY m d) ^ 2

/-- Gaussian kernel matrix (emregistration.py line 436):
`exp(-dist / (2 sigma2))` applied entrywise. -/
def gaussP (m : Fin M) (n : Fin N) : ℝ :=
  Real.exp (-(sqDistP M N D Xp TY m n) / (2 * sigma2))

/-- The outlier constant `c` (emregistration.py lines 440-442):
`(2 π sigma2)^(D/2) · w/(1-w) · M/N`. -/
def outlier_c : ℝ :=
  (2 * Real.pi * sigma2) ^ ((D : ℝ) / 2) * (w / (1 - w)) * ((M : ℝ) / (N : ℝ))

/-- The raw per-column denominator (emregistration.py line 445): the sum of
the Gaussian kernel column plus the outlier constant. -/
def Pden (n : Fin N) : ℝ :=
  (∑ m : Fin M, gaussP M N D Xp TY sigma2 m n) + outlier_c M N D sigma2 w

/-- Machine epsilon of IEEE double precision, the value of
`xp.finfo(float).eps`. -/
def eps64 : ℝ := 1 / 2 ^ 52

/-- The guarded denominator (emregistration.py line 447): a zero denominator
is replaced by machine epsilon, `den[den == 0] = xp.finfo(float).eps`. -/
def PdenGuarded (n : Fin N) : ℝ :=
  if Pden M N D Xp TY sigma2 w n = 0 then eps64
  else Pden M N D Xp TY sigma2 w n

/-- The normalized non-landmark correspondence matrix (emregistration.py line
450): the Gaussian kernel divided elementwise by the (column-tiled, guarded)
denominator. -/
def Pmn (m : Fin M) (n : Fin N) : ℝ :=
  gaussP M N D Xp TY sigma2 m n / PdenGuarded M N D Xp TY sigma2 w n

/-- The full correspondence matrix after the landmark augmentation
(emregistration.py lines 453-458): the non-landmark block is `Pmn`, the pad
rows/columns are zero, and the bottom-right K×K block is the identity scaled
by `sigma2 / ss2`.  When `K = 0` (unguided) this is just `Pmn`. -/
def Pfull (m : Fin (M + K)) (n : Fin (N + K)) : ℝ :=
  if hm : (m : ℕ) < M then
    if hn : (n : ℕ) < N then Pmn M N D Xp TY sigma2 w ⟨m, hm⟩ ⟨n, hn⟩
    else 0
  else
    if _hn : (n : ℕ) < N then 0
    else if (m : ℕ) - M = (n : ℕ) - N then sigma2 / ss2 else 0

end Expectation

/-! ### Affine variance update (affine_registration.py, `update_variance`
lines 84-118)

The update reads `Pt1[:N]`, `P1[:M]`, `PX[:M]`, `X_points` and
`TY_points_and_landmarks[:M]` from the engine state, together with the stored
`Np_without_landmarks`, `tolerance` and the dimensionality `D`. -/

section Variance

variable (N M K D : ℕ) (tol Np : ℝ)
variable (Pt1 : Fin (N + K) → ℝ) (P1 : Fin (M + K) → ℝ)
variable (PX : Fin (M + K) → Fin D → ℝ)
variable (Xp : Fin N → Fin D → ℝ) (TY : Fin (M + K) → Fin D → ℝ)

/-- The candidate variance of affine `update_variance`
(affine_registration.py lines 103-111): `(xPx - 2 trPXY + yPy) / (Np D)`
with `xPx = Pt1[:N] · rowSquares(X)`, `yPy = P1[:M] · rowSquares(TY[:M])` and
`trPXY = sum(TY[:M] * PX[:M])`. -/
def update_variance_candidate : ℝ :=
  let xPx := ∑ n : Fin N, Pt1 (Fin.castAdd K n) * ∑ d : Fin D, Xp n d * Xp n d
  let yPy := ∑ m : Fin M,
    P1 (Fin.castAdd K m) * ∑ d : Fin D, TY (Fin.castAdd K m) d * TY (Fin.castAdd K m) d
  let trPXY := ∑ m : Fin M, ∑ d : Fin D, TY (Fin.castAdd K m) d * PX (Fin.castAdd K m) d
  (xPx - 2 * trPXY + yPy) / (Np * (D : ℝ))

/-- The variance stored by affine `update_variance`
(affine_registration.py lines 111-114): the candidate, floored to
`tolerance / 10` when it is not positive. -/
def update_variance_sigma2 : ℝ :=
  if update_variance_candidate N M K D Np Pt1 P1 PX Xp TY ≤ 0 then tol / 10
  else update_variance_candidate N M K D Np Pt1 P1 PX Xp TY

end Variance

end RealEmbedding

/-! ## Claim theorems -/

/-- C1: the claim says that constructing an engine with both landmark arrays
absent (`None`) succeeds with `K = 0` and an unguided registration.  The code
does the opposite: because of the `xp.asarray` conversion at lines 159-160,
`np.asarray(None)` is a 0-dimensional ndarray, the `is not None` guards at
line 201 pass, and `X_landmarks.shape[0]` at line 202 raises
`IndexError: tuple index out of range`.  This theorem evaluates the embedded
constructor at the failing input (valid 4-point 2-D clouds, both landmark
arguments absent). -/
theorem C1_init_without_landmarks_raises :
    emInit { benignArgs with X_landmarks := Option.none, Y_landmarks := Option.none }
      = Except.error "IndexError: tuple index out of range" := by
  rfl

/-- C9 counterexample: with `max_iterations = 2.7` (a non-negative non-integer)
construction succeeds and warns, but the stored value is `int(2.7) = 2`
(truncation), not the rounded value `3` — refuting the claim's "stores the
value rounded to an integer" at this input. -/
theorem C9_counterexample :
    emInit { benignArgs with
               max_iterations := Option.some { val := 27 / 10, isInt := false } }
      = Except.ok { landmark_guided := true
                    K := 1
                    max_iterations := Option.some 2
                    max_iter_warned := true
                    tolerance := 1 / 1000
                    outliers := 0
                    ss2 := 1 / 10
                    force_max_iterations := false }
      ∧ round ((27 : ℚ) / 10) = 3 := by
  constructor
  · norm_num [emInit, benignArgs, validate_max_iterations, pyIntTrunc,
      landmark_guided_check, npShapeOfOpt, pyLen, initForce]
  · norm_num [round_eq]

/-- C9 (amended): if `max_iterations` is supplied as a non-negative number
whose Python type is not `int`, validation succeeds, issues a warning, and
stores the value truncated toward zero (the floor, for non-negative values) —
not rounded to the nearest integer. -/
theorem C9_max_iterations_truncated (q : ℚ) (h0 : 0 ≤ q) :
    validate_max_iterations (Option.some { val := q, isInt := false })
      = Except.ok (Option.some ((⌊q⌋ : ℤ) : ℚ), true) := by
  simp [validate_max_iterations, pyIntTrunc, h0, not_lt.mpr h0]

/-- C9 witness: the amended theorem applied at the concrete input `2.7`. -/
theorem C9_max_iterations_truncated_witness :
    validate_max_iterations (Option.some { val := 27 / 10, isInt := false })
      = Except.ok (Option.some ((⌊(27 : ℚ) / 10⌋ : ℤ) : ℚ), true) :=
  C9_max_iterations_truncated (27 / 10) (by norm_num)

/-- C7: the forward normalization map `(point - mean)/scale` followed by the
inverse map `point*scale + mean`, with either side's parameters and a nonzero
scale, is the identity on any point array (exact arithmetic).  -/
theorem C7_normalization_round_trip {D n : ℕ} {α : Type} [DivisionRing α]
    (p : NormParams D α) (mode : NormMode) (data : Fin n → Fin D → α)
    (hs : normScale p mode ≠ 0) :
    denormalizeData p mode (normalizeData p mode false data) = data := by
  funext i d
  show (data i d - normMean p mode d) / normScale p mode * normScale p mode
      + normMean p mode d = data i d
  rw [div_mul_cancel₀ _ hs, sub_add_cancel]

/-- C7 witness: the round trip applied to a concrete 1-point 1-D cloud with
the target-side parameters (mean 3, scale 2). -/
theorem C7_normalization_round_trip_witness :
    denormalizeData exampleNormParams NormMode.X
      (normalizeData exampleNormParams NormMode.X false exampleCloud) = exampleCloud :=
  C7_normalization_round_trip exampleNormParams NormMode.X exampleCloud (by decide)

/-- C6: with normalization enabled, `get_transformed_points` maps the
non-landmark transformed points through the inverse map built from the
target's (`X`'s) parameters: entry `(i, d)` equals
`TY[i, d] * X_scale + X_mean[d]`. -/
theorem C6_output_uses_target_params {M K D : ℕ} (p : NormParams D ℝ)
    (TY : Fin (M + K) → Fin D → ℝ) (i : Fin M) (d : Fin D) :
    get_transformed_points true p TY i d
      = TY (Fin.castAdd K i) d * p.X_scale + p.X_mean d := rfl

/-! ## Loop lemmas for C2 and C10 -/

/-- With a cap and the force flag on, the loop condition reduces to the
iteration bound alone: the tolerance check is short-circuited. -/
theorem loopCond_forced (c : ℕ) (tol : ℚ) (it : ℕ) (diff : WithTop ℚ) :
    loopCond (Option.some c) true tol it diff = decide (it < c) := by
  simp [loopCond]

/-- With the force flag off, the loop condition holds exactly when the cap (if
any) has not been reached and the difference still exceeds the tolerance. -/
theorem loopCond_unforced_iff (mi : Option ℕ) (tol : ℚ) (it : ℕ) (diff : WithTop ℚ) :
    loopCond mi false tol it diff = true ↔
      (∀ c, mi = Option.some c → it < c) ∧ (tol : WithTop ℚ) < diff := by
  cases mi <;> simp [loopCond]

/-- Force-on runs: starting at or below the cap with enough fuel, the loop
always finishes, ends with the iteration counter equal to the cap, and makes
one callback per iteration performed. -/
theorem registerLoop_forced_run (tol : ℚ) (dseq : ℕ → WithTop ℚ) (c : ℕ) :
    ∀ (fuel : ℕ) (st : LoopState), st.iteration ≤ c → c - st.iteration ≤ fuel →
      ∃ stF recs,
        registerLoop (Option.some c) true tol dseq fuel st = Option.some (stF, recs) ∧
        stF.iteration = c ∧ recs.length = c - st.iteration := by
  intro fuel
  induction fuel with
  | zero =>
    intro st hle hfuel
    have hit : st.iteration = c := by omega
    refine ⟨st, [], ?_, hit, by simp [hit]⟩
    simp [registerLoop, loopCond_forced, hit]
  | succ f ih =>
    intro st hle hfuel
    by_cases hit : st.iteration = c
    · refine ⟨st, [], ?_, hit, by simp [hit]⟩
      simp [registerLoop, loopCond_forced, hit]
    · have hlt : st.iteration < c := by omega
      obtain ⟨stF, recs, hrun, hiter, hlen⟩ :=
        ih (iterateStep dseq st) (by simpa [iterateStep] using hlt)
          (by simp only [iterateStep]; omega)
      have hrun' := hrun
      simp only [iterateStep] at hrun'
      refine ⟨stF, (st.iteration + 1, ⊤) :: recs, ?_, hiter, ?_⟩
      · simp [registerLoop, loopCond_forced, hlt, iterateStep, hrun']
      · simp only [List.length_cons]
        simp only [iterateStep] at hlen
        omega

/-- Force-off runs: a finished run reaches a state whose `diff` is the one
recorded by `diffAt`, never decreases the iteration counter, fails the loop
condition at the final state, and satisfied it at every earlier iteration. -/
theorem registerLoop_unforced_run (mi : Option ℕ) (tol : ℚ) (dseq : ℕ → WithTop ℚ) :
    ∀ (fuel : ℕ) (st stF : LoopState) (recs : List (ℕ × WithTop ℚ)),
      st.diff = diffAt dseq st.iteration →
      registerLoop mi false tol dseq fuel st = Option.some (stF, recs) →
      stF.diff = diffAt dseq stF.iteration ∧
      st.iteration ≤ stF.iteration ∧
      loopCond mi false tol stF.iteration stF.diff = false ∧
      ∀ k, st.iteration ≤ k → k < stF.iteration →
        loopCond mi false tol k (diffAt dseq k) = true := by
  intro fuel
  induction fuel with
  | zero =>
    intro st stF recs hdiff hrun
    cases hcond : loopCond mi false tol st.iteration st.diff with
    | true => simp [registerLoop, hcond] at hrun
    | false =>
      simp only [registerLoop, hcond, Bool.false_eq_true, if_false,
        Option.some.injEq, Prod.mk.injEq] at hrun
      obtain ⟨rfl, rfl⟩ := hrun
      exact ⟨hdiff, le_refl _, hcond, fun k h1 h2 => absurd h2 (by omega)⟩
  | succ f ih =>
    intro st stF recs hdiff hrun
    cases hcond : loopCond mi false tol st.iteration st.diff with
    | false =>
      simp only [registerLoop, hcond, Bool.false_eq_true, if_false,
        Option.some.injEq, Prod.mk.injEq] at hrun
      obtain ⟨rfl, rfl⟩ := hrun
      exact ⟨hdiff, le_refl _, hcond, fun k h1 h2 => absurd h2 (by omega)⟩
    | true =>
      simp only [registerLoop, hcond, if_true] at hrun
      cases hrec : registerLoop mi false tol dseq f (iterateStep dseq st) with
      | none => rw [hrec] at hrun; simp at hrun
      | some pr =>
        obtain ⟨stF', recs'⟩ := pr
        rw [hrec] at hrun
        simp only [Option.some.injEq, Prod.mk.injEq] at hrun
        obtain ⟨rfl, _⟩ := hrun
        have hdiff' : (iterateStep dseq st).diff
            = diffAt dseq (iterateStep dseq st).iteration := by
          simp [iterateStep, diffAt]
        obtain ⟨h1, h2, h3, h4⟩ := ih (iterateStep dseq st) stF' recs' hdiff' hrec
        simp only [iterateStep] at h2
        refine ⟨h1, by omega, h3, ?_⟩
        intro k hk1 hk2
        rcases eq_or_lt_of_le hk1 with heq | hlt
        · subst heq
          rw [← hdiff]
          exact hcond
        · exact h4 k (by simp [iterateStep]; omega) hk2

/-- All callback records produced by any run carry `q = ∞`: each record's
`error` component is the `q` field right after `iterate`, which affine
`update_variance` unconditionally sets to infinity. -/
theorem registerLoop_records_q_top (mi : Option ℕ) (force : Bool) (tol : ℚ)
    (dseq : ℕ → WithTop ℚ) :
    ∀ (fuel : ℕ) (st stF : LoopState) (recs : List (ℕ × WithTop ℚ)),
      registerLoop mi force tol dseq fuel st = Option.some (stF, recs) →
      ∀ r ∈ recs, r.2 = (⊤ : WithTop ℚ) := by
  intro fuel
  induction fuel with
  | zero =>
    intro st stF recs hrun
    cases hcond : loopCond mi force tol st.iteration st.diff with
    | true => simp [registerLoop, hcond] at hrun
    | false =>
      simp only [registerLoop, hcond, Bool.false_eq_true, if_false,
        Option.some.injEq, Prod.mk.injEq] at hrun
      obtain ⟨-, rfl⟩ := hrun
      intro r hr
      simp at hr
  | succ f ih =>
    intro st stF recs hrun
    cases hcond : loopCond mi force tol st.iteration st.diff with
    | false =>
      simp only [registerLoop, hcond, Bool.false_eq_true, if_false,
        Option.some.injEq, Prod.mk.injEq] at hrun
      obtain ⟨-, rfl⟩ := hrun
      intro r hr
      simp at hr
    | true =>
      simp only [registerLoop, hcond, if_true] at hrun
      cases hrec : registerLoop mi force tol dseq f (iterateStep dseq st) with
      | none => rw [hrec] at hrun; simp at hrun
      | some pr =>
        obtain ⟨stF', recs'⟩ := pr
        rw [hrec] at hrun
        simp only [Option.some.injEq, Prod.mk.injEq] at hrun
        obtain ⟨-, rfl⟩ := hrun
        intro r hr
        rcases List.mem_cons.mp hr with hhead | htail
        · simp [hhead, iterateStep]
        · exact ih (iterateStep dseq st) stF' recs' hrec r htail

/-- C2: termination policy of `register`.  Force on with a cap `c`: the loop
runs exactly `c` iterations (final counter `c`, one callback per iteration)
regardless of the tolerance check, for every sequence of `diff` values.
Force off: a finished run stops either because the `diff` value dropped to at
most the tolerance or because the counter reached the cap, and at every
earlier iteration the `diff` value still exceeded the tolerance and the cap
had not been reached. -/
theorem C2_register_termination (tol : ℚ) (dseq : ℕ → WithTop ℚ) :
    (∀ (c fuel : ℕ), c ≤ fuel →
      ∃ stF recs,
        registerLoop (Option.some c) true tol dseq fuel initLoopState
          = Option.some (stF, recs) ∧
        stF.iteration = c ∧ recs.length = c) ∧
    (∀ (mi : Option ℕ) (fuel : ℕ) (stF : LoopState) (recs : List (ℕ × WithTop ℚ)),
      registerLoop mi false tol dseq fuel initLoopState = Option.some (stF, recs) →
      (stF.diff ≤ (tol : WithTop ℚ) ∨ mi = Option.some stF.iteration) ∧
      ∀ k, k < stF.iteration →
        (tol : WithTop ℚ) < diffAt dseq k ∧ ∀ c, mi = Option.some c → k < c) := by
  constructor
  · intro c fuel hfuel
    obtain ⟨stF, recs, hrun, hiter, hlen⟩ :=
      registerLoop_forced_run tol dseq c fuel initLoopState (Nat.zero_le c)
        (by simpa [initLoopState] using hfuel)
    exact ⟨stF, recs, hrun, hiter, by simpa [initLoopState] using hlen⟩
  · intro mi fuel stF recs hrun
    obtain ⟨h1, h2, h3, h4⟩ :=
      registerLoop_unforced_run mi tol dseq fuel initLoopState stF recs rfl hrun
    have h4' : ∀ k, k < stF.iteration →
        (∀ c, mi = Option.some c → k < c) ∧ (tol : WithTop ℚ) < diffAt dseq k := by
      intro k hk
      have hcond := h4 k (Nat.zero_le k) hk
      rwa [loopCond_unforced_iff] at hcond
    constructor
    · have hnot : ¬ ((∀ c, mi = Option.some c → stF.iteration < c) ∧
          (tol : WithTop ℚ) < stF.diff) := by
        rw [← loopCond_unforced_iff]
        simp [h3]
      by_cases hd : (tol : WithTop ℚ) < stF.diff
      · right
        have hnotA : ¬ ∀ c, mi = Option.some c → stF.iteration < c :=
          fun hA => hnot ⟨hA, hd⟩
        push_neg at hnotA
        obtain ⟨c, hc, hcle⟩ := hnotA
        have hceq : c = stF.iteration := by
          rcases Nat.eq_zero_or_pos stF.iteration with h0 | hpos
          · omega
          · have := ((h4' (stF.iteration - 1) (by omega)).1) c hc
            omega
        rw [hc, hceq]
      · exact Or.inl (not_lt.mp hd)
    · intro k hk
      exact ⟨(h4' k hk).2, (h4' k hk).1⟩

/-- C2 witness: the forced half applied with cap 2 and a never-converging
`diff` sequence (2 iterations are performed), and the unforced half applied to
a concrete run with no cap and tolerance 0 that stops after one iteration
because `diff` dropped to 0. -/
theorem C2_register_termination_witness :
    (∃ stF recs,
        registerLoop (Option.some 2) true 0 (fun _ => (⊤ : WithTop ℚ)) 2 initLoopState
          = Option.some (stF, recs) ∧ stF.iteration = 2 ∧ recs.length = 2) ∧
    (((⟨1, ((0 : ℚ) : WithTop ℚ), ⊤⟩ : LoopState).diff ≤ ((0 : ℚ) : WithTop ℚ) ∨
        (Option.none : Option ℕ)
          = Option.some (⟨1, ((0 : ℚ) : WithTop ℚ), ⊤⟩ : LoopState).iteration) ∧
      ∀ k, k < (⟨1, ((0 : ℚ) : WithTop ℚ), ⊤⟩ : LoopState).iteration →
        ((0 : ℚ) : WithTop ℚ) < diffAt (fun _ => ((0 : ℚ) : WithTop ℚ)) k ∧
        ∀ c, (Option.none : Option ℕ) = Option.some c → k < c) :=
  ⟨(C2_register_termination 0 (fun _ => ⊤)).1 2 2 (by decide),
   (C2_register_termination 0 (fun _ => ((0 : ℚ) : WithTop ℚ))).2 Option.none 2
     ⟨1, ((0 : ℚ) : WithTop ℚ), ⊤⟩ [(1, ⊤)] (by decide)⟩

/-- C10: for the affine variant, the objective `q` is infinity at construction
(line 273) and every callback record produced by a run of `register` from the
initial state reports `error = ∞`, because affine `update_variance` resets
`q = xp.inf` on every iteration before the callback reads it. -/
theorem C10_affine_callback_error_infinite (mi : Option ℕ) (force : Bool)
    (tol : ℚ) (dseq : ℕ → WithTop ℚ) (fuel : ℕ) (stF : LoopState)
    (recs : List (ℕ × WithTop ℚ))
    (hrun : registerLoop mi force tol dseq fuel initLoopState
      = Option.some (stF, recs)) :
    initLoopState.q = ⊤ ∧ ∀ r ∈ recs, r.2 = (⊤ : WithTop ℚ) :=
  ⟨rfl, registerLoop_records_q_top mi force tol dseq fuel initLoopState stF recs hrun⟩

/-- C10 witness: a concrete one-iteration forced run whose single callback
record carries `error = ∞`. -/
theorem C10_affine_callback_error_infinite_witness :
    initLoopState.q = ⊤ ∧
    ∀ r ∈ [((1 : ℕ), (⊤ : WithTop ℚ))], r.2 = (⊤ : WithTop ℚ) :=
  C10_affine_callback_error_infinite (Option.some 1) true 0 (fun _ => (⊤ : WithTop ℚ))
    1 ⟨1, ⊤, ⊤⟩ [(1, ⊤)] (by decide)

/-! ## Expectation-step lemmas for C3, C5, C8 -/

/-- Every entry of the Gaussian kernel matrix is strictly positive. -/
theorem gaussP_pos (M N D : ℕ) (Xp : Fin N → Fin D → ℝ) (TY : Fin M → Fin D → ℝ)
    (sigma2 : ℝ) (m : Fin M) (n : Fin N) : 0 < gaussP M N D Xp TY sigma2 m n :=
  Real.exp_pos _

/-- With a positive variance and an outlier weight in `[0, 1)`, the outlier
constant is non-negative. -/
theorem outlier_c_nonneg (M N D : ℕ) (sigma2 w : ℝ) (hs : 0 < sigma2)
    (hw0 : 0 ≤ w) (hw1 : w < 1) : 0 ≤ outlier_c M N D sigma2 w := by
  have h1 : (0 : ℝ) < 2 * Real.pi * sigma2 := by
    have := Real.pi_pos
    nlinarith
  have h2 : (0 : ℝ) ≤ (2 * Real.pi * sigma2) ^ ((D : ℝ) / 2) :=
    (Real.rpow_pos_of_pos h1 _).le
  have h3 : (0 : ℝ) ≤ w / (1 - w) := div_nonneg hw0 (by linarith)
  have h4 : (0 : ℝ) ≤ (M : ℝ) / (N : ℝ) :=
    div_nonneg (Nat.cast_nonneg M) (Nat.cast_nonneg N)
  exact mul_nonneg (mul_nonneg h2 h3) h4

/-- The raw denominator is non-negative in a valid engine state. -/
theorem Pden_nonneg (M N D : ℕ) (Xp : Fin N → Fin D → ℝ) (TY : Fin M → Fin D → ℝ)
    (sigma2 w : ℝ) (hs : 0 < sigma2) (hw0 : 0 ≤ w) (hw1 : w < 1) (n : Fin N) :
    0 ≤ Pden M N D Xp TY sigma2 w n :=
  add_nonneg (Finset.sum_nonneg fun m _ => (gaussP_pos M N D Xp TY sigma2 m n).le)
    (outlier_c_nonneg M N D sigma2 w hs hw0 hw1)

/-- The guarded denominator is strictly positive in a valid engine state. -/
theorem PdenGuarded_pos (M N D : ℕ) (Xp : Fin N → Fin D → ℝ)
    (TY : Fin M → Fin D → ℝ) (sigma2 w : ℝ) (hs : 0 < sigma2) (hw0 : 0 ≤ w)
    (hw1 : w < 1) (n : Fin N) : 0 < PdenGuarded M N D Xp TY sigma2 w n := by
  unfold PdenGuarded
  split_ifs with h
  · unfold eps64
    norm_num
  · exact lt_of_le_of_ne (Pden_nonneg M N D Xp TY sigma2 w hs hw0 hw1 n) (Ne.symm h)

/-- Entries of the normalized non-landmark block are non-negative. -/
theorem Pmn_nonneg (M N D : ℕ) (Xp : Fin N → Fin D → ℝ) (TY : Fin M → Fin D → ℝ)
    (sigma2 w : ℝ) (hs : 0 < sigma2) (hw0 : 0 ≤ w) (hw1 : w < 1)
    (m : Fin M) (n : Fin N) : 0 ≤ Pmn M N D Xp TY sigma2 w m n :=
  div_nonneg (gaussP_pos M N D Xp TY sigma2 m n).le
    (PdenGuarded_pos M N D Xp TY sigma2 w hs hw0 hw1 n).le

/-- Each column of the normalized non-landmark block sums to at most one. -/
theorem Pmn_col_sum_le_one (M N D : ℕ) (Xp : Fin N → Fin D → ℝ)
    (TY : Fin M → Fin D → ℝ) (sigma2 w : ℝ) (hs : 0 < sigma2) (hw0 : 0 ≤ w)
    (hw1 : w < 1) (n : Fin N) : ∑ m : Fin M, Pmn M N D Xp TY sigma2 w m n ≤ 1 := by
  have hsum : ∑ m : Fin M, Pmn M N D Xp TY sigma2 w m n
      = (∑ m : Fin M, gaussP M N D Xp TY sigma2 m n)
          / PdenGuarded M N D Xp TY sigma2 w n :=
    (Finset.sum_div _ _ _).symm
  by_cases h0 : Pden M N D Xp TY sigma2 w n = 0
  · have hg : (0 : ℝ) ≤ ∑ m : Fin M, gaussP M N D Xp TY sigma2 m n :=
      Finset.sum_nonneg fun m _ => (gaussP_pos M N D Xp TY sigma2 m n).le
    have hc := outlier_c_nonneg M N D sigma2 w hs hw0 hw1
    have hz : ∑ m : Fin M, gaussP M N D Xp TY sigma2 m n = 0 := by
      unfold Pden at h0
      linarith
    rw [hsum, hz, zero_div]
    norm_num
  · have hden : PdenGuarded M N D Xp TY sigma2 w n = Pden M N D Xp TY sigma2 w n :=
      if_neg h0
    have hpos : 0 < Pden M N D Xp TY sigma2 w n :=
      lt_of_le_of_ne (Pden_nonneg M N D Xp TY sigma2 w hs hw0 hw1 n) (Ne.symm h0)
    rw [hsum, hden, div_le_one hpos]
    have hc := outlier_c_nonneg M N D sigma2 w hs hw0 hw1
    unfold Pden
    linarith

/-- The non-landmark block of the padded matrix is `Pmn`. -/
theorem Pfull_castAdd (M N K D : ℕ) (Xp : Fin N → Fin D → ℝ)
    (TY : Fin M → Fin D → ℝ) (sigma2 w ss2 : ℝ) (m : Fin M) (n : Fin N) :
    Pfull M N K D Xp TY sigma2 w ss2 (Fin.castAdd K m) (Fin.castAdd K n)
      = Pmn M N D Xp TY sigma2 w m n := by
  unfold Pfull
  rw [dif_pos (show (((Fin.castAdd K m) : Fin (M + K)) : ℕ) < M from m.isLt),
    dif_pos (show (((Fin.castAdd K n) : Fin (N + K)) : ℕ) < N from n.isLt)]
  rfl

/-- C3: after the expectation step in a valid engine state (`sigma2 > 0`,
`w ∈ [0,1)`, `ss2 > 0`, nonempty target), every entry of the full
correspondence matrix is non-negative and every column of the non-landmark
block `P[:M, :N]` sums to at most 1. -/
theorem C3_expectation_nonneg_and_column_sums (M N K D : ℕ)
    (Xp : Fin N → Fin D → ℝ) (TY : Fin M → Fin D → ℝ) (sigma2 w ss2 : ℝ)
    (hs : 0 < sigma2) (hw0 : 0 ≤ w) (hw1 : w < 1) (hss2 : 0 < ss2) (hN : 0 < N) :
    (∀ (m : Fin (M + K)) (n : Fin (N + K)),
        0 ≤ Pfull M N K D Xp TY sigma2 w ss2 m n) ∧
    ∀ n : Fin N, ∑ m : Fin M,
        Pfull M N K D Xp TY sigma2 w ss2 (Fin.castAdd K m) (Fin.castAdd K n) ≤ 1 := by
  constructor
  · intro m n
    unfold Pfull
    split_ifs with hm hn hn' heq
    · exact Pmn_nonneg M N D Xp TY sigma2 w hs hw0 hw1 ⟨m, hm⟩ ⟨n, hn⟩
    · exact le_refl 0
    · exact le_refl 0
    · exact div_nonneg hs.le hss2.le
    · exact le_refl 0
  · intro n
    calc ∑ m : Fin M,
          Pfull M N K D Xp TY sigma2 w ss2 (Fin.castAdd K m) (Fin.castAdd K n)
        = ∑ m : Fin M, Pmn M N D Xp TY sigma2 w m n :=
          Finset.sum_congr rfl fun m _ => Pfull_castAdd M N K D Xp TY sigma2 w ss2 m n
      _ ≤ 1 := Pmn_col_sum_le_one M N D Xp TY sigma2 w hs hw0 hw1 n

/-- C3 witness: the theorem applied to a concrete valid state (one target
point, one source point, one dimension, `sigma2 = 1`, `w = 0`, `ss2 = 1`). -/
theorem C3_expectation_nonneg_and_column_sums_witness :
    (∀ (m : Fin (1 + 0)) (n : Fin (1 + 0)),
        0 ≤ Pfull 1 1 0 1 (fun _ _ => 0) (fun _ _ => 0) 1 0 1 m n) ∧
    ∀ n : Fin 1, ∑ m : Fin 1,
        Pfull 1 1 0 1 (fun _ _ => 0) (fun _ _ => 0) 1 0 1
          (Fin.castAdd 0 m) (Fin.castAdd 0 n) ≤ 1 :=
  C3_expectation_nonneg_and_column_sums 1 1 0 1 (fun _ _ => 0) (fun _ _ => 0) 1 0 1
    (by norm_num) (by norm_num) (by norm_num) (by norm_num) (by norm_num)

/-- C5: in a landmark-guided registration (`K > 0`) the bottom-right K×K
block of the padded correspondence matrix is exactly the identity scaled by
`sigma2 / ss2`. -/
theorem C5_landmark_block_scaled_identity (M N K D : ℕ)
    (Xp : Fin N → Fin D → ℝ) (TY : Fin M → Fin D → ℝ) (sigma2 w ss2 : ℝ)
    (hK : 0 < K) (i j : Fin K) :
    Pfull M N K D Xp TY sigma2 w ss2 (Fin.natAdd M i) (Fin.natAdd N j)
      = if i = j then sigma2 / ss2 else 0 := by
  unfold Pfull
  rw [dif_neg (show ¬ (((Fin.natAdd M i) : Fin (M + K)) : ℕ) < M by
        simp only [Fin.coe_natAdd]; omega),
    dif_neg (show ¬ (((Fin.natAdd N j) : Fin (N + K)) : ℕ) < N by
        simp only [Fin.coe_natAdd]; omega)]
  have hiff : ((((Fin.natAdd M i) : Fin (M + K)) : ℕ) - M
      = (((Fin.natAdd N j) : Fin (N + K)) : ℕ) - N) ↔ i = j := by
    simp only [Fin.coe_natAdd, Nat.add_sub_cancel_left]
    exact Fin.ext_iff.symm
  rw [if_congr hiff rfl rfl]

/-- C5 witness: the theorem applied with one landmark pair and empty point
clouds (`K = 1`, `sigma2 = ss2 = 1`). -/
theorem C5_landmark_block_scaled_identity_witness :
    Pfull 0 0 1 1 (fun _ _ => 0) (fun _ _ => 0) 1 0 1
        (Fin.natAdd 0 0) (Fin.natAdd 0 0)
      = if (0 : Fin 1) = 0 then (1 : ℝ) / 1 else 0 :=
  C5_landmark_block_scaled_identity 0 0 1 1 (fun _ _ => 0) (fun _ _ => 0) 1 0 1
    (by norm_num) 0 0

/-- C8: for every column, a zero raw denominator is replaced by machine
epsilon, the guarded denominator is never zero, and the matrix entries are
computed by dividing the Gaussian kernel by the guarded denominator. -/
theorem C8_denominator_never_zero (M N D : ℕ) (Xp : Fin N → Fin D → ℝ)
    (TY : Fin M → Fin D → ℝ) (sigma2 w : ℝ) (n : Fin N) :
    (Pden M N D Xp TY sigma2 w n = 0 → PdenGuarded M N D Xp TY sigma2 w n = eps64) ∧
    PdenGuarded M N D Xp TY sigma2 w n ≠ 0 ∧
    ∀ m : Fin M, Pmn M N D Xp TY sigma2 w m n
      = gaussP M N D Xp TY sigma2 m n / PdenGuarded M N D Xp TY sigma2 w n := by
  refine ⟨fun h => if_pos h, ?_, fun m => rfl⟩
  unfold PdenGuarded
  split_ifs with h
  · unfold eps64
    norm_num
  · exact h

/-- C8 witness: the guard evaluated on a concrete empty-source column whose
raw denominator is exactly zero (`M = 0`, `w = 0`). -/
theorem C8_denominator_never_zero_witness :
    (Pden 0 1 1 (fun _ _ => 0) (fun _ _ => 0) 1 0 0 = 0 →
      PdenGuarded 0 1 1 (fun _ _ => 0) (fun _ _ => 0) 1 0 0 = eps64) ∧
    PdenGuarded 0 1 1 (fun _ _ => 0) (fun _ _ => 0) 1 0 0 ≠ 0 ∧
    ∀ m : Fin 0, Pmn 0 1 1 (fun _ _ => 0) (fun _ _ => 0) 1 0 m 0
      = gaussP 0 1 1 (fun _ _ => 0) (fun _ _ => 0) 1 m 0
          / PdenGuarded 0 1 1 (fun _ _ => 0) (fun _ _ => 0) 1 0 0 :=
  C8_denominator_never_zero 0 1 1 (fun _ _ => 0) (fun _ _ => 0) 1 0 0

/-- C4 counterexample: `tolerance = 0` is accepted at construction (only
negative values are rejected), and at a concrete engine state whose candidate
variance is negative, `update_variance` stores `tolerance / 10 = 0` — so
`sigma2` is not strictly positive after `update_variance`, refuting the claim
as stated. -/
theorem C4_counterexample :
    emInit { benignArgs with tolerance := Option.some 0 }
      = Except.ok { landmark_guided := true
                    K := 1
                    max_iterations := Option.none
                    max_iter_warned := false
                    tolerance := 0
                    outliers := 0
                    ss2 := 1 / 10
                    force_max_iterations := false } ∧
    update_variance_sigma2 1 1 0 1 0 1 (fun _ => 0) (fun _ => 1) (fun _ _ => 1)
      (fun _ _ => 0) (fun _ _ => 1) = 0 := by
  constructor
  · rfl
  · have hc : update_variance_candidate 1 1 0 1 1 (fun _ => 0) (fun _ => 1)
        (fun _ _ => 1) (fun _ _ => 0) (fun _ _ => 1) = -1 := by
      unfold update_variance_candidate
      simp [Fin.sum_univ_one]
      norm_num
    unfold update_variance_sigma2
    rw [hc]
    norm_num

/-- C4 (amended): for every engine state with positive stored tolerance,
positive responsibility mass `Np_without_landmarks` and positive
dimensionality, `sigma2` is strictly positive after `update_variance`; and
whenever the computed candidate is at most 0, the stored value is exactly
`tolerance / 10`. -/
theorem C4_update_variance_sigma2_positive (N M K D : ℕ) (tol Np : ℝ)
    (Pt1 : Fin (N + K) → ℝ) (P1 : Fin (M + K) → ℝ) (PX : Fin (M + K) → Fin D → ℝ)
    (Xp : Fin N → Fin D → ℝ) (TY : Fin (M + K) → Fin D → ℝ)
    (htol : 0 < tol) (hNp : 0 < Np) (hD : 0 < D) :
    0 < update_variance_sigma2 N M K D tol Np Pt1 P1 PX Xp TY ∧
    (update_variance_candidate N M K D Np Pt1 P1 PX Xp TY ≤ 0 →
      update_variance_sigma2 N M K D tol Np Pt1 P1 PX Xp TY = tol / 10) := by
  unfold update_variance_sigma2
  constructor
  · split_ifs with h
    · linarith
    · push_neg at h
      exact h
  · intro hc
    rw [if_pos hc]

/-- C4 witness: the amended theorem applied at a concrete state with
`tolerance = 1`, whose candidate variance is negative, so the floored value
`1/10` is stored. -/
theorem C4_update_variance_sigma2_positive_witness :
    0 < update_variance_sigma2 1 1 0 1 1 1 (fun _ => 0) (fun _ => 1) (fun _ _ => 1)
        (fun _ _ => 0) (fun _ _ => 1) ∧
    (update_variance_candidate 1 1 0 1 1 (fun _ => 0) (fun _ => 1) (fun _ _ => 1)
        (fun _ _ => 0) (fun _ _ => 1) ≤ 0 →
      update_variance_sigma2 1 1 0 1 1 1 (fun _ => 0) (fun _ => 1) (fun _ _ => 1)
        (fun _ _ => 0) (fun _ _ => 1) = 1 / 10) :=
  C4_update_variance_sigma2_positive 1 1 0 1 1 1 (fun _ => 0) (fun _ => 1)
    (fun _ _ => 1) (fun _ _ => 0) (fun _ _ => 1) (by norm_num) (by norm_num)
    (by norm_num)

end Pylgcpd
